import Mathlib

/-!
Shallow embedding of the DirectInput joystick driver in src/win/wjoydxnu.c:
the capability map, the logical layout builder, the per-device state
snapshot, the delta handlers, the poller loop and the enumeration
callback, together with theorems checking the specification document
against them.  Machine integers are modelled as Int/Nat (the DWORD
arguments of the handlers are Nat, with the explicit C cast to a signed
32-bit int written out); float positions are modelled as exact rationals.
-/

namespace Wjoydxnu

/-! ## Constants (wjoydxnu.c lines 78-86, 205) -/

def MAX_JOYSTICKS : Nat := 8
def MAX_SLIDERS : Nat := 2
def MAX_POVS : Nat := 4
def MAX_BUTTONS : Nat := 32
def DEVICE_BUFFER_SIZE : Nat := 10

/-- Value of JOY_POVFORWARD from the mmsystem.h header consumed by the source. -/
def JOY_POVFORWARD : Int := 0

/-- Value of JOY_POVRIGHT from mmsystem.h. -/
def JOY_POVRIGHT : Int := 9000

/-- Value of JOY_POVBACKWARD from mmsystem.h. -/
def JOY_POVBACKWARD : Int := 18000

/-- Value of JOY_POVLEFT from mmsystem.h. -/
def JOY_POVLEFT : Int := 27000

/-- Defined in wjoydxnu.c line 205. -/
def JOY_POVFORWARD_WRAP : Int := 36000

/-! ## Raw offset table (DIJOFS_* from dinput.h, the c_dfDIJoystick layout) -/

def DIJOFS_X : Nat := 0
def DIJOFS_Y : Nat := 4
def DIJOFS_Z : Nat := 8
def DIJOFS_RX : Nat := 12
def DIJOFS_RY : Nat := 16
def DIJOFS_RZ : Nat := 20
def DIJOFS_SLIDER (n : Nat) : Nat := 24 + 4 * n
def DIJOFS_POV (n : Nat) : Nat := 32 + 4 * n
def DIJOFS_BUTTON0 : Nat := 48
def DIJOFS_BUTTON (n : Nat) : Nat := 48 + n

/-- Reinterpretation of a 32-bit DWORD as a signed int, the C cast
written explicitly (used at the `(int)value` sites in the handlers). -/
def int32_of_dword (d : Nat) : Int :=
  if d % 2 ^ 32 < 2 ^ 31 then ((d % 2 ^ 32 : Nat) : Int)
  else ((d % 2 ^ 32 : Nat) : Int) - 2 ^ 32

/-! ## Capability map (CAPS_AND_NAMES, lines 91-101)

Dynamically allocated-or-NULL name strings become `Option String`;
the counted arrays for sliders, hats and buttons become lists whose
length plays the role of the count field. -/

structure CAPS_AND_NAMES where
  have_x : Bool
  name_x : Option String
  have_y : Bool
  name_y : Option String
  have_z : Bool
  name_z : Option String
  have_rx : Bool
  name_rx : Option String
  have_ry : Bool
  name_ry : Option String
  have_rz : Bool
  name_rz : Option String
  name_slider : List (Option String)
  name_pov : List (Option String)
  name_button : List (Option String)
deriving DecidableEq

/-- AXIS_MAPPING (lines 105-107): a DirectInput axis mapped to an Allegro
(stick, axis) pair.  The fields are C ints. -/
structure AXIS_MAPPING where
  stick : Int
  axis : Int
deriving DecidableEq

/-! ## Logical schema (_AL_JOYSTICK_INFO, published to the user) -/

structure AxisInfo where
  name : String
deriving DecidableEq

structure StickInfo where
  digital : Bool
  analogue : Bool
  name : String
  axes : List AxisInfo
deriving DecidableEq

structure JoystickInfo where
  sticks : List StickInfo
  buttons : List AxisInfo
deriving DecidableEq

def emptyStick : StickInfo := ⟨false, false, ("" : String), []⟩

/-! ## Default names (lines 188-202) -/

def default_name_x : String := "X"
def default_name_y : String := "Y"
def default_name_z : String := "Z"
def default_name_rx : String := "RX"
def default_name_ry : String := "RY"
def default_name_rz : String := "RZ"
def default_name_stick : String := "stick"
def default_name_slider : String := "slider"
def default_name_hat : String := "hat"
def default_name_button : List String :=
  ["B1", "B2", "B3", "B4", "B5", "B6", "B7", "B8",
   "B9", "B10", "B11", "B12", "B13", "B14", "B15", "B16",
   "B17", "B18", "B19", "B20", "B21", "B22", "B23", "B24",
   "B25", "B26", "B27", "B28", "B29", "B30", "B31", "B32"]

/-- The OR macro of fill_joystick_info_using_caps_and_names (line 375):
use the discovered name when non-NULL, else the default. -/
def OR (a : Option String) (b : String) : String := a.getD b

/-! ## Logical layout builder (fill_joystick_info_using_caps_and_names,
lines 367-469)

The C function mutates `info` in place; here the mutation is sequential
list building.  `add_axis` is one of the six identical per-axis blocks:
given the stick index being built and the axes appended so far, a present
axis is appended (recording its mapping as (stick index, axis slot)),
an absent one is skipped, leaving the memset-zero mapping untouched. -/

def add_axis (stick_index : Nat) (axes : List AxisInfo) (present : Bool)
    (nm : Option String) (d : String) (old : AXIS_MAPPING) :
    List AxisInfo × AXIS_MAPPING :=
  if present then
    (axes ++ [⟨OR nm d⟩], ⟨(stick_index : Int), (axes.length : Int)⟩)
  else (axes, old)

structure FillResult where
  info : JoystickInfo
  x_mapping : AXIS_MAPPING
  y_mapping : AXIS_MAPPING
  z_mapping : AXIS_MAPPING
  rx_mapping : AXIS_MAPPING
  ry_mapping : AXIS_MAPPING
  rz_mapping : AXIS_MAPPING
  slider_mapping : List AXIS_MAPPING
  pov_mapping_stick : List Int
deriving DecidableEq

def fill_joystick_info_using_caps_and_names (can : CAPS_AND_NAMES) : FillResult :=
  -- memset-zero default for the mappings (joystick_enum_callback line 531)
  let zm : AXIS_MAPPING := ⟨0, 0⟩
  -- the X, Y, Z axes make up the first stick (its index is 0 while building)
  let r1 := add_axis 0 [] can.have_x can.name_x default_name_x zm
  let r2 := add_axis 0 r1.1 can.have_y can.name_y default_name_y zm
  let r3 := add_axis 0 r2.1 can.have_z can.name_z default_name_z zm
  let sticks1 : List StickInfo :=
    if can.have_x || can.have_y || can.have_z then
      [⟨true, true, default_name_stick, r3.1⟩]
    else []
  -- the Rx, Ry, Rz axes make up the next stick
  let n1 := sticks1.length
  let s1 := add_axis n1 [] can.have_rx can.name_rx default_name_rx zm
  let s2 := add_axis n1 s1.1 can.have_ry can.name_ry default_name_ry zm
  let s3 := add_axis n1 s2.1 can.have_rz can.name_rz default_name_rz zm
  let sticks2 : List StickInfo :=
    sticks1 ++
      (if can.have_rx || can.have_ry || can.have_rz then
        [⟨true, true, default_name_stick, s3.1⟩]
      else [])
  -- sliders are assigned to one stick each
  let n2 := sticks2.length
  let sliderSticks : List StickInfo :=
    can.name_slider.map (fun nm => ⟨true, true, OR nm default_name_slider, [⟨("" : String)⟩]⟩)
  let slider_mapping : List AXIS_MAPPING :=
    (List.range can.name_slider.length).map (fun i => ⟨((n2 + i : Nat) : Int), 0⟩)
  let sticks3 := sticks2 ++ sliderSticks
  -- POV devices are assigned to one stick each
  let n3 := sticks3.length
  let povSticks : List StickInfo :=
    can.name_pov.map (fun nm =>
      ⟨true, false, OR nm default_name_hat, [⟨("left/right" : String)⟩, ⟨("up/down" : String)⟩]⟩)
  let pov_mapping_stick : List Int :=
    (List.range can.name_pov.length).map (fun i => ((n3 + i : Nat) : Int))
  let sticks4 := sticks3 ++ povSticks
  -- buttons
  let buttons : List AxisInfo :=
    can.name_button.enum.map (fun p => ⟨OR p.2 (default_name_button.getD p.1 ("" : String))⟩)
  { info := ⟨sticks4, buttons⟩
    x_mapping := r1.2
    y_mapping := r2.2
    z_mapping := r3.2
    rx_mapping := s1.2
    ry_mapping := s2.2
    rz_mapping := s3.2
    slider_mapping := slider_mapping
    pov_mapping_stick := pov_mapping_stick }

/-! ## Spec-side layout (refinement target for C1)

These definitions follow the words of the specification in spec.md §3-4.1:
sticks in the fixed order (X,Y,Z)-stick, (RX,RY,RZ)-stick, one stick per
slider, one two-axis stick per hat; within a stick the canonical axis
order with absent axes skipped; canonical default names substituted for
absent display names; buttons in discovery order. -/

def spec_stick_xyz (can : CAPS_AND_NAMES) : List StickInfo :=
  if can.have_x || can.have_y || can.have_z then
    [⟨true, true, ("stick" : String),
      (if can.have_x then [⟨can.name_x.getD ("X" : String)⟩] else []) ++
      (if can.have_y then [⟨can.name_y.getD ("Y" : String)⟩] else []) ++
      (if can.have_z then [⟨can.name_z.getD ("Z" : String)⟩] else [])⟩]
  else []

def spec_stick_rxyz (can : CAPS_AND_NAMES) : List StickInfo :=
  if can.have_rx || can.have_ry || can.have_rz then
    [⟨true, true, ("stick" : String),
      (if can.have_rx then [⟨can.name_rx.getD ("RX" : String)⟩] else []) ++
      (if can.have_ry then [⟨can.name_ry.getD ("RY" : String)⟩] else []) ++
      (if can.have_rz then [⟨can.name_rz.getD ("RZ" : String)⟩] else [])⟩]
  else []

def spec_layout_sticks (can : CAPS_AND_NAMES) : List StickInfo :=
  spec_stick_xyz can ++ spec_stick_rxyz can ++
    can.name_slider.map (fun nm => ⟨true, true, nm.getD ("slider" : String), [⟨("" : String)⟩]⟩) ++
    can.name_pov.map (fun nm =>
      ⟨true, false, nm.getD ("hat" : String), [⟨("left/right" : String)⟩, ⟨("up/down" : String)⟩]⟩)

def spec_layout_buttons (can : CAPS_AND_NAMES) : List AxisInfo :=
  can.name_button.enum.map
    (fun p => ⟨p.2.getD (default_name_button.getD p.1 ("" : String))⟩)

/-! ## Events and the event source contract (§4.5, consumed interface)

The event source is abstracted by which event types a subscriber wants
and how many free event slots remain; allocating a slot when none is
free fails (_al_event_source_get_unused_event returning NULL).
Timestamps (wall clock) are outside the model. -/

inductive EventType where
  | axisMoved
  | buttonDown
  | buttonUp
deriving DecidableEq

structure JoyEvent where
  type : EventType
  stick : Int
  axis : Int
  pos : ℚ
  button : Int
deriving DecidableEq

structure EventSource where
  needs : EventType → Bool
  free_slots : Nat

/-! ## State snapshot (AL_JOYSTATE)

The C arrays are modelled as total functions so that an out-of-bounds
C array write is representable (it updates the function at the raw
index). -/

structure JOYSTATE where
  axisPos : Nat → Nat → ℚ
  buttonVal : Int → Int

def set_axis (st : JOYSTATE) (s a : Nat) (p : ℚ) : JOYSTATE :=
  { st with axisPos := fun s2 a2 => if s2 = s ∧ a2 = a then p else st.axisPos s2 a2 }

def set_button (st : JOYSTATE) (b : Int) (v : Int) : JOYSTATE :=
  { st with buttonVal := fun b2 => if b2 = b then v else st.buttonVal b2 }

/-- Device record (AL_JOYSTICK_DIRECTX, lines 110-128, with the parts of
the AL_JOYSTICK parent that the driver touches: the info and the event
source). -/
structure Joystick where
  info : JoystickInfo
  gotten : Bool
  joystate : JOYSTATE
  x_mapping : AXIS_MAPPING
  y_mapping : AXIS_MAPPING
  z_mapping : AXIS_MAPPING
  rx_mapping : AXIS_MAPPING
  ry_mapping : AXIS_MAPPING
  rz_mapping : AXIS_MAPPING
  slider_mapping : List AXIS_MAPPING
  pov_mapping_stick : List Int
  es : EventSource

/-! ## Event generation (lines 1058-1104) -/

def generate_axis_event (es : EventSource) (stick axis : Int) (pos : ℚ) :
    EventSource × List JoyEvent :=
  if es.needs EventType.axisMoved = false then (es, [])
  else if es.free_slots = 0 then (es, [])
  else ({ es with free_slots := es.free_slots - 1 },
        [⟨EventType.axisMoved, stick, axis, pos, 0⟩])

def generate_button_event (es : EventSource) (button : Int) (t : EventType) :
    EventSource × List JoyEvent :=
  if es.needs t = false then (es, [])
  else if es.free_slots = 0 then (es, [])
  else ({ es with free_slots := es.free_slots - 1 },
        [⟨t, 0, 0, 0, button⟩])

/-! ## Delta handlers (lines 970-1050) -/

/-- handle_axis_event (lines 970-985): bounds-check the mapping against
the live schema, store pos = (int)value / 32767.0, emit an axis event. -/
def handle_axis_event (joy : Joystick) (axis_mapping : AXIS_MAPPING) (value : Nat) :
    Joystick × List JoyEvent :=
  let stick := axis_mapping.stick
  let axis := axis_mapping.axis
  if stick < 0 ∨ (joy.info.sticks.length : Int) ≤ stick then (joy, [])
  else if axis < 0 ∨ ((joy.info.sticks.getD stick.toNat emptyStick).axes.length : Int) ≤ axis then
    (joy, [])
  else
    let pos : ℚ := (int32_of_dword value : ℚ) / 32767
    let joy2 := { joy with joystate := set_axis joy.joystate stick.toNat axis.toNat pos }
    let r := generate_axis_event joy2.es stick axis pos
    ({ joy2 with es := r.1 }, r.2)

/-- The first if-chain of handle_pov_event (lines 1005-1012): the value
stored into hat axis 0 (left/right). -/
def hat_x_value (value : Int) : ℚ :=
  if JOY_POVBACKWARD < value ∧ value < JOY_POVFORWARD_WRAP then -1
  else if JOY_POVFORWARD < value ∧ value < JOY_POVBACKWARD then 1
  else 0

/-- The second if-chain of handle_pov_event (lines 1014-1022): the value
stored into hat axis 1 (up/down). -/
def hat_y_value (value : Int) : ℚ :=
  if (JOY_POVLEFT < value ∧ value ≤ JOY_POVFORWARD_WRAP) ∨
     (JOY_POVFORWARD ≤ value ∧ value < JOY_POVRIGHT) then -1
  else if JOY_POVRIGHT < value ∧ value < JOY_POVLEFT then 1
  else 0

/-- handle_pov_event (lines 993-1029): read both old axis values, store
the new pair, emit an axis event per axis only on change. -/
def handle_pov_event (joy : Joystick) (stick : Int) (_value : Nat) :
    Joystick × List JoyEvent :=
  let value : Int := int32_of_dword _value
  if stick < 0 ∨ (joy.info.sticks.length : Int) ≤ stick then (joy, [])
  else
    let old_p0 := joy.joystate.axisPos stick.toNat 0
    let old_p1 := joy.joystate.axisPos stick.toNat 1
    let p0 := hat_x_value value
    let p1 := hat_y_value value
    let st1 := set_axis joy.joystate stick.toNat 0 p0
    let st2 := set_axis st1 stick.toNat 1 p1
    let r0 := if old_p0 ≠ p0 then generate_axis_event joy.es stick 0 p0 else (joy.es, [])
    let r1 := if old_p1 ≠ p1 then generate_axis_event r0.1 stick 1 p1 else (r0.1, [])
    ({ joy with joystate := st2, es := r1.1 }, r0.2 ++ r1.2)

/-- handle_button_event (lines 1037-1050), with the conjunctive bounds
test exactly as in the source: `button < 0 && button >= num_buttons`. -/
def handle_button_event (joy : Joystick) (button : Int) (down : Bool) :
    Joystick × List JoyEvent :=
  if button < 0 ∧ (joy.info.buttons.length : Int) ≤ button then (joy, [])
  else if down then
    let joy2 := { joy with joystate := set_button joy.joystate button 32767 }
    let r := generate_button_event joy2.es button EventType.buttonDown
    ({ joy2 with es := r.1 }, r.2)
  else
    let joy2 := { joy with joystate := set_button joy.joystate button 0 }
    let r := generate_button_event joy2.es button EventType.buttonUp
    ({ joy2 with es := r.1 }, r.2)

/-! ## Per-device drain (update_joystick, lines 898-962)

The HID backend drain (IDirectInputDevice2_GetDeviceData) is abstracted
as a drain result: a list of buffered deltas on success (DI_OK or
DI_BUFFEROVERFLOW), or one of the two error classes the code
distinguishes. -/

structure DIDEVICEOBJECTDATA where
  dwOfs : Nat
  dwData : Nat
deriving DecidableEq

inductive DrainResult where
  | ok (items : List DIDEVICEOBJECTDATA)
  | notAcquired
  | otherError
deriving DecidableEq

/-- The switch statement of update_joystick (lines 936-958) applied to
one buffered delta. -/
def dispatch_delta (joy : Joystick) (item : DIDEVICEOBJECTDATA) :
    Joystick × List JoyEvent :=
  if item.dwOfs = DIJOFS_X then handle_axis_event joy joy.x_mapping item.dwData
  else if item.dwOfs = DIJOFS_Y then handle_axis_event joy joy.y_mapping item.dwData
  else if item.dwOfs = DIJOFS_Z then handle_axis_event joy joy.z_mapping item.dwData
  else if item.dwOfs = DIJOFS_RX then handle_axis_event joy joy.rx_mapping item.dwData
  else if item.dwOfs = DIJOFS_RY then handle_axis_event joy joy.ry_mapping item.dwData
  else if item.dwOfs = DIJOFS_RZ then handle_axis_event joy joy.rz_mapping item.dwData
  else if item.dwOfs = DIJOFS_SLIDER 0 then
    handle_axis_event joy (joy.slider_mapping.getD 0 ⟨0, 0⟩) item.dwData
  else if item.dwOfs = DIJOFS_SLIDER 1 then
    handle_axis_event joy (joy.slider_mapping.getD 1 ⟨0, 0⟩) item.dwData
  else if item.dwOfs = DIJOFS_POV 0 then
    handle_pov_event joy (joy.pov_mapping_stick.getD 0 0) item.dwData
  else if item.dwOfs = DIJOFS_POV 1 then
    handle_pov_event joy (joy.pov_mapping_stick.getD 1 0) item.dwData
  else if item.dwOfs = DIJOFS_POV 2 then
    handle_pov_event joy (joy.pov_mapping_stick.getD 2 0) item.dwData
  else if item.dwOfs = DIJOFS_POV 3 then
    handle_pov_event joy (joy.pov_mapping_stick.getD 3 0) item.dwData
  else if DIJOFS_BUTTON0 ≤ item.dwOfs ∧ item.dwOfs < DIJOFS_BUTTON joy.info.buttons.length then
    handle_button_event joy ((item.dwOfs - DIJOFS_BUTTON0 : Nat) : Int)
      (Nat.land item.dwData 0x80 != 0)
  else (joy, [])

/-- The for loop of update_joystick over the buffered deltas, collecting
the generated events in order. -/
def update_items (joy : Joystick) (items : List DIDEVICEOBJECTDATA) :
    Joystick × List JoyEvent :=
  match items with
  | [] => (joy, [])
  | it :: rest =>
      let r := dispatch_delta joy it
      let rr := update_items r.1 rest
      (rr.1, r.2 ++ rr.2)

structure UpdateOutcome where
  joy : Joystick
  events : List JoyEvent
  reacquire_scheduled : Bool

def update_joystick (joy : Joystick) (dr : DrainResult) : UpdateOutcome :=
  match dr with
  | DrainResult.notAcquired =>
      -- DIERR_NOTACQUIRED / DIERR_INPUTLOST: schedule a reacquire, drop the round
      ⟨joy, [], true⟩
  | DrainResult.otherError =>
      -- logged and ignored
      ⟨joy, [], false⟩
  | DrainResult.ok items =>
      if items.length = 0 then ⟨joy, [], false⟩
      else
        let r := update_items joy items
        ⟨r.1, r.2, false⟩

/-! ## Poller loop and facade (joydx_thread_proc lines 858-889,
joydx_release_joystick lines 823-835)

The driver table joydx_joystick[] with its count joydx_num_joysticks is
modelled as a total function plus a count. -/

structure DriverState where
  count : Nat
  dev : Nat → Joystick

/-- joydx_release_joystick: clear the gotten flag (the event source
teardown is outside the single-device model). -/
def joydx_release_joystick (joy : Joystick) : Joystick :=
  { joy with gotten := false }

/-- The driver table after user code releases device h. -/
def release_state (st : DriverState) (h : Nat) : DriverState :=
  { st with dev := fun m => if m = h then joydx_release_joystick (st.dev m) else st.dev m }

/-- One non-stop wake-up of joydx_thread_proc (lines 874-883): decode the
signalled index, skip it if out of range, and run update_joystick only if
that device is currently gotten.  `result_num` is the already-decoded
`num = result - WAIT_OBJECT_0 - 1`; the drain result the device would
deliver is passed in. -/
def joydx_thread_iteration (st : DriverState) (result_num : Int) (dr : DrainResult) :
    DriverState × List JoyEvent :=
  if result_num < 0 ∨ (st.count : Int) ≤ result_num then (st, [])
  else
    let n := result_num.toNat
    if (st.dev n).gotten then
      let r := update_joystick (st.dev n) dr
      ({ st with dev := fun m => if m = n then r.joy else st.dev m }, r.events)
    else (st, [])

/-- A run of poller wake-ups (no take or release interleaved), recording
for each wake-up the signalled index and the events emitted for it. -/
def joydx_thread_run (st : DriverState) (ws : List (Int × DrainResult)) :
    DriverState × List (Int × List JoyEvent) :=
  match ws with
  | [] => (st, [])
  | w :: rest =>
      let r := joydx_thread_iteration st w.1 w.2
      let rr := joydx_thread_run r.1 rest
      (rr.1, (w.1, r.2) :: rr.2)

/-! ## Enumeration callback (joystick_enum_callback, lines 477-640)

Each fallible OS step is abstracted as a success flag; the callback is
the goto-Error control flow over those flags.  The observable outcome
records the device count, the final wake handle slot for this device, whether
a device handle is still open, whether the record was stored, the
DIENUM_CONTINUE return, and which table slot the callback wrote
(the memset of line 531 and the fills of lines 579-582 both target
joydx_joystick[joydx_num_joysticks]). -/

inductive WakerKind where
  | event
  | timer
deriving DecidableEq

structure EnumOutcome where
  create_ok : Bool
  query_ok : Bool
  coop_ok : Bool
  enumobj_ok : Bool
  fmt_ok : Bool
  range_ok : Bool
  deadzone_ok : Bool
  buffersize_ok : Bool
  event_notify_ok : Bool
  polled : Bool
  timer_ok : Bool
deriving DecidableEq

structure CallbackResult where
  num_joysticks : Nat
  waker : Option WakerKind
  device_open : Bool
  device_stored : Bool
  ret_continue : Bool
  slot_written : Nat
deriving DecidableEq

/-- The Error label (lines 629-639): close and reset the wake handle if
set, release the device handle if open, leave the count alone and
continue enumeration. -/
def enum_error_cleanup (n : Nat) (waker : Option WakerKind) (device_open : Bool) :
    CallbackResult :=
  ⟨n, if waker.isSome then none else waker, if device_open then false else device_open,
   false, true, n⟩

/-- The entry assertion of joystick_enum_callback (line 528):
ASSERT(joydx_num_joysticks > 0 AND joydx_num_joysticks < MAX_JOYSTICKS-1). -/
def enum_entry_assert (n : Nat) : Prop :=
  0 < n ∧ n < MAX_JOYSTICKS - 1

instance (n : Nat) : Decidable (enum_entry_assert n) := by
  unfold enum_entry_assert; infer_instance

def joystick_enum_callback (n : Nat) (oc : EnumOutcome) : CallbackResult :=
  if oc.create_ok = false then enum_error_cleanup n none false
  else if oc.query_ok = false then enum_error_cleanup n none false
  else if oc.coop_ok = false then enum_error_cleanup n none true
  else if oc.enumobj_ok = false then enum_error_cleanup n none true
  else if oc.fmt_ok = false then enum_error_cleanup n none true
  else if oc.range_ok = false then enum_error_cleanup n none true
  else if oc.deadzone_ok = false then enum_error_cleanup n none true
  else if oc.buffersize_ok = false then enum_error_cleanup n none true
  -- the record is filled and the wake event created here
  else if oc.event_notify_ok = false then enum_error_cleanup n (some WakerKind.event) true
  else if oc.polled = true then
    -- replace the event with a waitable timer
    (if oc.timer_ok = false then enum_error_cleanup n none true
     else ⟨n + 1, some WakerKind.timer, true, true, true, n⟩)
  else ⟨n + 1, some WakerKind.event, true, true, true, n⟩

def enum_callback_success (oc : EnumOutcome) : Bool :=
  oc.create_ok && oc.query_ok && oc.coop_ok && oc.enumobj_ok && oc.fmt_ok &&
  oc.range_ok && oc.deadzone_ok && oc.buffersize_ok && oc.event_notify_ok &&
  (!oc.polled || oc.timer_ok)

/-- A full enumeration pass: joydx_init starts at joydx_num_joysticks = 0
(its own assertion, line 663) and invokes the callback once per attached
device. -/
def enum_run (devs : List EnumOutcome) : Nat :=
  devs.foldl (fun n oc => (joystick_enum_callback n oc).num_joysticks) 0

def all_ok_outcome : EnumOutcome :=
  ⟨true, true, true, true, true, true, true, true, true, false, true⟩

/-! ## Hat decision rules as worded by the specification

`claim_hat_x` and `claim_hat_y` transcribe the decision rule sentence of
spec.md §4.4 word for word, to be compared with the source computation
(`hat_x_value`, `hat_y_value`).  `amended_hat_x` and `amended_hat_y` are
the rule the source actually implements, stated in the same style. -/

def claim_hat_x (raw : Int) : ℚ :=
  if 9000 < raw ∧ raw < 27000 then 1
  else if (0 < raw ∧ raw < 9000) ∨ (27000 < raw ∧ raw < 36000) then -1
  else 0

def claim_hat_y (raw : Int) : ℚ :=
  if (0 ≤ raw ∧ raw ≤ 36000) ∧ (raw ≤ 9000 ∨ 27000 ≤ raw) then -1
  else if 9000 < raw ∧ raw < 27000 then 1
  else 0

def amended_hat_x (raw : Int) : ℚ :=
  if 0 < raw ∧ raw < 18000 then 1
  else if 18000 < raw ∧ raw < 36000 then -1
  else 0

def amended_hat_y (raw : Int) : ℚ :=
  if (0 ≤ raw ∧ raw < 9000) ∨ (27000 < raw ∧ raw ≤ 36000) then -1
  else if 9000 < raw ∧ raw < 27000 then 1
  else 0

/-! ## Concrete fixtures for witnesses and counterexamples -/

def zeroState : JOYSTATE := ⟨fun _ _ => 0, fun _ => 0⟩

/-- An event source with a subscriber for every joystick event type and
room for ten events. -/
def openES : EventSource := ⟨fun _ => true, 10⟩

/-- An event source whose queue is full. -/
def fullES : EventSource := ⟨fun _ => true, 0⟩

def zero_mapping : AXIS_MAPPING := ⟨0, 0⟩

/-- A two-axis pad: one stick with axes X and Y, two buttons. -/
def padJoy : Joystick :=
  ⟨⟨[⟨true, true, ("stick" : String), [⟨("X" : String)⟩, ⟨("Y" : String)⟩]⟩],
    [⟨("B1" : String)⟩, ⟨("B2" : String)⟩]⟩,
   true, zeroState, ⟨0, 0⟩, ⟨0, 1⟩, zero_mapping, zero_mapping, zero_mapping, zero_mapping,
   [], [], openES⟩

/-- The two-axis pad with a full event queue. -/
def padJoyFull : Joystick := { padJoy with es := fullES }

/-- A hat-only device: one two-axis hat stick mapped from POV 0. -/
def hatJoy : Joystick :=
  ⟨⟨[⟨true, false, ("hat" : String), [⟨("left/right" : String)⟩, ⟨("up/down" : String)⟩]⟩], []⟩,
   true, zeroState, zero_mapping, zero_mapping, zero_mapping, zero_mapping, zero_mapping,
   zero_mapping, [], [0], openES⟩

/-- A button-only device with four buttons. -/
def btnJoy : Joystick :=
  ⟨⟨[], [⟨("B1" : String)⟩, ⟨("B2" : String)⟩, ⟨("B3" : String)⟩, ⟨("B4" : String)⟩]⟩,
   true, zeroState, zero_mapping, zero_mapping, zero_mapping, zero_mapping, zero_mapping,
   zero_mapping, [], [], openES⟩

/-- The buffered delta the HID backend produces for button b: offset
DIJOFS_BUTTON0 + b, data with the 0x80 bit when pressed. -/
def button_delta (b : Nat) (down : Bool) : DIDEVICEOBJECTDATA :=
  ⟨DIJOFS_BUTTON0 + b, if down then 0x80 else 0⟩

/-- A drain round consisting only of button deltas. -/
def run_buttons (joy : Joystick) (bs : List (Nat × Bool)) : UpdateOutcome :=
  update_joystick joy (DrainResult.ok (bs.map (fun p => button_delta p.1 p.2)))

/-- A one-device driver table holding the pad. -/
def padTable : DriverState := ⟨1, fun _ => padJoy⟩

/-- The device state after handle_button_event records a press or
release and consumes one event slot (proof-support abbreviation). -/
def button_step_state (joy : Joystick) (b : Int) (down : Bool) : Joystick :=
  { joy with
    joystate := set_button joy.joystate b (if down then 32767 else 0),
    es := { joy.es with free_slots := joy.es.free_slots - 1 } }

/-! ## Theorems -/

/-- Claim C1: the logical layout builder is a pure, deterministic, total
function of the capability map (it is a Lean function); for every
capability map its output schema is exactly the spec layout: a first
stick named "stick" collecting the present axes among X, Y, Z in that
order with no holes, then likewise for RX, RY, RZ, then one one-axis
stick per slider, then one two-axis stick per hat with axes named
left/right and up/down, with buttons in discovery order and canonical
default names substituted for absent display names. -/
theorem c1_layout_builder (can : CAPS_AND_NAMES) :
    (fill_joystick_info_using_caps_and_names can).info.sticks = spec_layout_sticks can ∧
    (fill_joystick_info_using_caps_and_names can).info.buttons = spec_layout_buttons can := by
  constructor
  · cases hx : can.have_x <;> cases hy : can.have_y <;> cases hz : can.have_z <;>
      cases hrx : can.have_rx <;> cases hry : can.have_ry <;> cases hrz : can.have_rz <;>
      simp [fill_joystick_info_using_caps_and_names, spec_layout_sticks, spec_stick_xyz,
        spec_stick_rxyz, add_axis, OR, default_name_x, default_name_y, default_name_z,
        default_name_rx, default_name_ry, default_name_rz, default_name_stick,
        default_name_slider, default_name_hat, hx, hy, hz, hrx, hry, hrz]
  · simp [fill_joystick_info_using_caps_and_names, spec_layout_buttons, OR]

/-- Claim C2: for every axis delta whose mapping resolves to a
(stick, axis) inside the device schema, handle_axis_event stores
pos = raw / 32767 into the snapshot and emits one axis event carrying
that position; pos lies in [-1, 1] whenever the raw value lies in the
calibrated range [-32767, 32767], and a snapshot whose axis positions
were all in [-1, 1] keeps that property. -/
theorem c2_handle_axis (joy : Joystick) (m : AXIS_MAPPING) (value : Nat)
    (hs0 : 0 ≤ m.stick) (hs1 : m.stick < (joy.info.sticks.length : Int))
    (ha0 : 0 ≤ m.axis)
    (ha1 : m.axis < ((joy.info.sticks.getD m.stick.toNat emptyStick).axes.length : Int))
    (hneed : joy.es.needs EventType.axisMoved = true)
    (hslot : 0 < joy.es.free_slots)
    (hlo : -32767 ≤ int32_of_dword value) (hhi : int32_of_dword value ≤ 32767) :
    (handle_axis_event joy m value).1.joystate.axisPos m.stick.toNat m.axis.toNat
      = (int32_of_dword value : ℚ) / 32767 ∧
    (handle_axis_event joy m value).2
      = [⟨EventType.axisMoved, m.stick, m.axis, (int32_of_dword value : ℚ) / 32767, 0⟩] ∧
    (-1 ≤ (int32_of_dword value : ℚ) / 32767 ∧ (int32_of_dword value : ℚ) / 32767 ≤ 1) ∧
    ((∀ s a, -1 ≤ joy.joystate.axisPos s a ∧ joy.joystate.axisPos s a ≤ 1) →
      ∀ s a, -1 ≤ (handle_axis_event joy m value).1.joystate.axisPos s a ∧
             (handle_axis_event joy m value).1.joystate.axisPos s a ≤ 1) := by
  have h1 : ¬ (m.stick < 0 ∨ (joy.info.sticks.length : Int) ≤ m.stick) := by omega
  have h2 : ¬ (m.axis < 0 ∨
      ((joy.info.sticks.getD m.stick.toNat emptyStick).axes.length : Int) ≤ m.axis) := by
    omega
  have hslot0 : joy.es.free_slots ≠ 0 := by omega
  have hrange : -1 ≤ (int32_of_dword value : ℚ) / 32767 ∧
      (int32_of_dword value : ℚ) / 32767 ≤ 1 := by
    constructor
    · rw [le_div_iff₀ (by norm_num : (0 : ℚ) < 32767)]
      have hc : ((-32767 : Int) : ℚ) ≤ (int32_of_dword value : ℚ) := by exact_mod_cast hlo
      push_cast at hc
      linarith
    · rw [div_le_one (by norm_num : (0 : ℚ) < 32767)]
      exact_mod_cast hhi
  have key : handle_axis_event joy m value =
      ({ joy with
          joystate := set_axis joy.joystate m.stick.toNat m.axis.toNat
            ((int32_of_dword value : ℚ) / 32767),
          es := { joy.es with free_slots := joy.es.free_slots - 1 } },
        [⟨EventType.axisMoved, m.stick, m.axis, (int32_of_dword value : ℚ) / 32767, 0⟩]) := by
    simp only [handle_axis_event]
    rw [if_neg h1, if_neg h2]
    simp [generate_axis_event, hneed, hslot0]
  refine ⟨?_, ?_, hrange, ?_⟩
  · rw [key]
    simp [set_axis]
  · rw [key]
  · intro hold s a
    rw [key]
    by_cases hsa : s = m.stick.toNat ∧ a = m.axis.toNat
    · simpa [set_axis, hsa] using hrange
    · simpa [set_axis, hsa] using hold s a

/-- Witness for c2_handle_axis: the two-axis pad at full deflection,
delta (X, +32767). -/
theorem c2_handle_axis_witness :
    ((0 : Int) ≤ (0 : Int) ∧ (0 : Int) < (padJoy.info.sticks.length : Int) ∧
     (0 : Int) ≤ (0 : Int) ∧
     (0 : Int) < ((padJoy.info.sticks.getD (0 : Int).toNat emptyStick).axes.length : Int) ∧
     padJoy.es.needs EventType.axisMoved = true ∧
     0 < padJoy.es.free_slots ∧
     -32767 ≤ int32_of_dword 32767 ∧ int32_of_dword 32767 ≤ 32767) ∧
    ((handle_axis_event padJoy ⟨0, 0⟩ 32767).1.joystate.axisPos (0 : Int).toNat (0 : Int).toNat
      = (int32_of_dword 32767 : ℚ) / 32767 ∧
    (handle_axis_event padJoy ⟨0, 0⟩ 32767).2
      = [⟨EventType.axisMoved, 0, 0, (int32_of_dword 32767 : ℚ) / 32767, 0⟩] ∧
    (-1 ≤ (int32_of_dword 32767 : ℚ) / 32767 ∧ (int32_of_dword 32767 : ℚ) / 32767 ≤ 1) ∧
    ((∀ s a, -1 ≤ padJoy.joystate.axisPos s a ∧ padJoy.joystate.axisPos s a ≤ 1) →
      ∀ s a, -1 ≤ (handle_axis_event padJoy ⟨0, 0⟩ 32767).1.joystate.axisPos s a ∧
             (handle_axis_event padJoy ⟨0, 0⟩ 32767).1.joystate.axisPos s a ≤ 1)) :=
  ⟨⟨by decide, by decide, by decide, by decide, by decide, by decide, by decide, by decide⟩,
   c2_handle_axis padJoy ⟨0, 0⟩ 32767 (by decide) (by decide) (by decide) (by decide)
     (by decide) (by decide) (by decide) (by decide)⟩

lemma hat_x_value_eq_amended (v : Int) : hat_x_value v = amended_hat_x v := by
  unfold hat_x_value amended_hat_x JOY_POVFORWARD JOY_POVBACKWARD JOY_POVFORWARD_WRAP
  split_ifs <;> first | rfl | omega

lemma hat_y_value_eq_amended (v : Int) : hat_y_value v = amended_hat_y v := by
  unfold hat_y_value amended_hat_y JOY_POVFORWARD JOY_POVRIGHT JOY_POVLEFT JOY_POVFORWARD_WRAP
  split_ifs <;> first | rfl | omega

/-- Claim C3 as stated is false: at raw = 9000 (hat pointing right) the
code stores x = +1 and y = 0, while the decision rule quoted by the
claim gives x = 0 and y = -1. -/
theorem c3_claim_rule_counterexample :
    (handle_pov_event hatJoy 0 9000).1.joystate.axisPos 0 0 = 1 ∧
    claim_hat_x 9000 = 0 ∧
    (handle_pov_event hatJoy 0 9000).1.joystate.axisPos 0 1 = 0 ∧
    claim_hat_y 9000 = -1 := by
  refine ⟨?_, by decide, ?_, by decide⟩ <;>
    norm_num [handle_pov_event, hatJoy, zeroState, set_axis, hat_x_value, hat_y_value,
      int32_of_dword, JOY_POVFORWARD, JOY_POVRIGHT, JOY_POVBACKWARD, JOY_POVLEFT,
      JOY_POVFORWARD_WRAP, generate_axis_event, openES]

/-- Claim C3 amended: for every hat delta on a stick inside the schema,
handle_pov_event stores into the hat stick axes the pair given by the
rule the source implements: x = +1 if 0 < raw < 18000, -1 if
18000 < raw < 36000, else 0; y = -1 if 0 <= raw < 9000 or
27000 < raw <= 36000, +1 if 9000 < raw < 27000, else 0; any value
outside the valid range (the centered sentinel included) yields (0, 0),
and both axes always take values in {-1, 0, +1}. -/
theorem c3_hat_rule_amended (joy : Joystick) (stick : Int) (value : Nat)
    (h0 : 0 ≤ stick) (h1 : stick < (joy.info.sticks.length : Int)) :
    ((handle_pov_event joy stick value).1.joystate.axisPos stick.toNat 0
        = amended_hat_x (int32_of_dword value) ∧
     (handle_pov_event joy stick value).1.joystate.axisPos stick.toNat 1
        = amended_hat_y (int32_of_dword value)) ∧
    (∀ v : Int, (amended_hat_x v = -1 ∨ amended_hat_x v = 0 ∨ amended_hat_x v = 1) ∧
                (amended_hat_y v = -1 ∨ amended_hat_y v = 0 ∨ amended_hat_y v = 1)) ∧
    (∀ v : Int, (v < 0 ∨ 36000 < v) → amended_hat_x v = 0 ∧ amended_hat_y v = 0) := by
  have hb : ¬ (stick < 0 ∨ (joy.info.sticks.length : Int) ≤ stick) := by omega
  have key : (handle_pov_event joy stick value).1.joystate
      = set_axis (set_axis joy.joystate stick.toNat 0 (hat_x_value (int32_of_dword value)))
          stick.toNat 1 (hat_y_value (int32_of_dword value)) := by
    simp only [handle_pov_event]
    rw [if_neg hb]
  refine ⟨⟨?_, ?_⟩, ?_, ?_⟩
  · rw [key, ← hat_x_value_eq_amended]
    simp [set_axis]
  · rw [key, ← hat_y_value_eq_amended]
    simp [set_axis]
  · intro v
    refine ⟨?_, ?_⟩
    · unfold amended_hat_x
      split_ifs <;> simp
    · unfold amended_hat_y
      split_ifs <;> simp
  · intro v hv
    refine ⟨?_, ?_⟩
    · unfold amended_hat_x
      split_ifs <;> first | rfl | omega
    · unfold amended_hat_y
      split_ifs <;> first | rfl | omega

/-- Witness for c3_hat_rule_amended: the hat device at raw = 18000
(hat pointing down). -/
theorem c3_hat_rule_amended_witness :
    ((0 : Int) ≤ (0 : Int) ∧ (0 : Int) < (hatJoy.info.sticks.length : Int)) ∧
    (((handle_pov_event hatJoy 0 18000).1.joystate.axisPos (0 : Int).toNat 0
        = amended_hat_x (int32_of_dword 18000) ∧
      (handle_pov_event hatJoy 0 18000).1.joystate.axisPos (0 : Int).toNat 1
        = amended_hat_y (int32_of_dword 18000)) ∧
     (∀ v : Int, (amended_hat_x v = -1 ∨ amended_hat_x v = 0 ∨ amended_hat_x v = 1) ∧
                 (amended_hat_y v = -1 ∨ amended_hat_y v = 0 ∨ amended_hat_y v = 1)) ∧
     (∀ v : Int, (v < 0 ∨ 36000 < v) → amended_hat_x v = 0 ∧ amended_hat_y v = 0)) :=
  ⟨⟨by decide, by decide⟩, c3_hat_rule_amended hatJoy 0 18000 (by decide) (by decide)⟩

/-- Claim C4: for every hat delta (with an axis subscriber and slots for
both axes), an axis event for a hat-stick axis is emitted exactly when
that axis value changed from its stored snapshot value: an unchanged
axis contributes no event, a changed axis contributes exactly one event
carrying the new value. -/
theorem c4_hat_edge_events (joy : Joystick) (stick : Int) (value : Nat)
    (h0 : 0 ≤ stick) (h1 : stick < (joy.info.sticks.length : Int))
    (hneed : joy.es.needs EventType.axisMoved = true)
    (hslots : 2 ≤ joy.es.free_slots) :
    (handle_pov_event joy stick value).2 =
      (if joy.joystate.axisPos stick.toNat 0 = hat_x_value (int32_of_dword value) then []
       else [⟨EventType.axisMoved, stick, 0, hat_x_value (int32_of_dword value), 0⟩]) ++
      (if joy.joystate.axisPos stick.toNat 1 = hat_y_value (int32_of_dword value) then []
       else [⟨EventType.axisMoved, stick, 1, hat_y_value (int32_of_dword value), 0⟩]) := by
  have hb : ¬ (stick < 0 ∨ (joy.info.sticks.length : Int) ≤ stick) := by omega
  have hs1 : joy.es.free_slots ≠ 0 := by omega
  have hs2 : joy.es.free_slots - 1 ≠ 0 := by omega
  simp only [handle_pov_event]
  rw [if_neg hb]
  by_cases hx : joy.joystate.axisPos stick.toNat 0 = hat_x_value (int32_of_dword value) <;>
    by_cases hy : joy.joystate.axisPos stick.toNat 1 = hat_y_value (int32_of_dword value) <;>
    simp [hx, hy, generate_axis_event, hneed, hs1, hs2]

/-- Witness for c4_hat_edge_events: the hat device at raw = 9000; axis 0
changes from 0 to +1 (one event), axis 1 stays 0 (no event). -/
theorem c4_hat_edge_events_witness :
    ((0 : Int) ≤ (0 : Int) ∧ (0 : Int) < (hatJoy.info.sticks.length : Int) ∧
     hatJoy.es.needs EventType.axisMoved = true ∧ 2 ≤ hatJoy.es.free_slots) ∧
    (handle_pov_event hatJoy 0 9000).2 =
      (if hatJoy.joystate.axisPos (0 : Int).toNat 0 = hat_x_value (int32_of_dword 9000) then []
       else [⟨EventType.axisMoved, 0, 0, hat_x_value (int32_of_dword 9000), 0⟩]) ++
      (if hatJoy.joystate.axisPos (0 : Int).toNat 1 = hat_y_value (int32_of_dword 9000) then []
       else [⟨EventType.axisMoved, 0, 1, hat_y_value (int32_of_dword 9000), 0⟩]) :=
  ⟨⟨by decide, by decide, by decide, by decide⟩,
   c4_hat_edge_events hatJoy 0 9000 (by decide) (by decide) (by decide) (by decide)⟩

/-- The conjunctive bounds test of handle_button_event can never hold:
button < 0 together with num_buttons <= button would force
num_buttons < 0, impossible for a Nat-sized count. -/
lemma handle_button_not_rejected (joy : Joystick) (b : Int) :
    ¬ (b < 0 ∧ (joy.info.buttons.length : Int) ≤ b) := by omega

/-- Reduction of handle_button_event when a subscriber wants the event
and a slot is free. -/
lemma handle_button_event_eq (joy : Joystick) (b : Int) (down : Bool)
    (hneed : joy.es.needs (if down then EventType.buttonDown else EventType.buttonUp) = true)
    (hslot : joy.es.free_slots ≠ 0) :
    handle_button_event joy b down =
      (button_step_state joy b down,
       [⟨if down then EventType.buttonDown else EventType.buttonUp, 0, 0, 0, b⟩]) := by
  have hrej := handle_button_not_rejected joy b
  cases down <;>
    (simp only [handle_button_event]
     rw [if_neg hrej]) <;>
    simp_all [generate_button_event, button_step_state]

/-- The switch of update_joystick routes a button delta with an
in-schema offset to handle_button_event with the decoded index and
press bit. -/
lemma dispatch_delta_button (joy : Joystick) (b : Nat) (down : Bool)
    (hb : b < joy.info.buttons.length) :
    dispatch_delta joy (button_delta b down) = handle_button_event joy (b : Int) down := by
  have hoffs : ∀ k : Nat, k < 48 → 48 + b ≠ k := by omega
  simp only [dispatch_delta, button_delta, DIJOFS_X, DIJOFS_Y, DIJOFS_Z, DIJOFS_RX, DIJOFS_RY,
    DIJOFS_RZ, DIJOFS_SLIDER, DIJOFS_POV, DIJOFS_BUTTON0, DIJOFS_BUTTON]
  rw [if_neg (hoffs 0 (by norm_num)), if_neg (hoffs 4 (by norm_num)),
      if_neg (hoffs 8 (by norm_num)), if_neg (hoffs 12 (by norm_num)),
      if_neg (hoffs 16 (by norm_num)), if_neg (hoffs 20 (by norm_num)),
      if_neg (hoffs (24 + 4 * 0) (by norm_num)), if_neg (hoffs (24 + 4 * 1) (by norm_num)),
      if_neg (hoffs (32 + 4 * 0) (by norm_num)), if_neg (hoffs (32 + 4 * 1) (by norm_num)),
      if_neg (hoffs (32 + 4 * 2) (by norm_num)), if_neg (hoffs (32 + 4 * 3) (by norm_num)),
      if_pos (by omega)]
  have e1 : 48 + b - 48 = b := by omega
  rw [e1]
  cases down <;> rfl

/-- Core induction for C6: a drain round of in-bounds button deltas,
with both button event types subscribed and a slot per delta, emits
exactly one event per delta and leaves each button at the value of its
last delta. -/
lemma update_items_buttons (bs : List (Nat × Bool)) :
    ∀ joy : Joystick,
      (∀ p ∈ bs, p.1 < joy.info.buttons.length) →
      joy.es.needs EventType.buttonDown = true →
      joy.es.needs EventType.buttonUp = true →
      bs.length ≤ joy.es.free_slots →
      (update_items joy (bs.map (fun p => button_delta p.1 p.2))).2
          = bs.map (fun p =>
              (⟨if p.2 then EventType.buttonDown else EventType.buttonUp, 0, 0, 0,
                (p.1 : Int)⟩ : JoyEvent)) ∧
      ∀ v : Int,
        (update_items joy (bs.map (fun p => button_delta p.1 p.2))).1.joystate.buttonVal v
          = match bs.reverse.find? (fun p => ((p.1 : Int) == v)) with
            | none => joy.joystate.buttonVal v
            | some q => if q.2 then 32767 else 0 := by
  induction bs with
  | nil =>
      intro joy hb hnd hnu hs
      exact ⟨rfl, fun v => rfl⟩
  | cons p bs ih =>
      intro joy hb hnd hnu hs
      have hb0 : p.1 < joy.info.buttons.length := hb p (List.mem_cons_self p bs)
      have hslot : joy.es.free_slots ≠ 0 := by
        simp only [List.length_cons] at hs
        omega
      have hneed : joy.es.needs (if p.2 then EventType.buttonDown else EventType.buttonUp)
          = true := by
        cases p.2 <;> simp [hnd, hnu]
      have step := handle_button_event_eq joy (p.1 : Int) p.2 hneed hslot
      have hchain :
          update_items joy ((p :: bs).map (fun q => button_delta q.1 q.2))
            = ((update_items (button_step_state joy (p.1 : Int) p.2)
                  (bs.map (fun q => button_delta q.1 q.2))).1,
               [⟨if p.2 then EventType.buttonDown else EventType.buttonUp, 0, 0, 0,
                 (p.1 : Int)⟩] ++
               (update_items (button_step_state joy (p.1 : Int) p.2)
                  (bs.map (fun q => button_delta q.1 q.2))).2) := by
        simp only [List.map_cons, update_items]
        rw [dispatch_delta_button joy p.1 p.2 hb0, step]
      obtain ⟨ihe, ihv⟩ :=
        ih (button_step_state joy (p.1 : Int) p.2)
          (by intro q hq
              simpa [button_step_state] using hb q (List.mem_cons_of_mem p hq))
          (by simp [button_step_state, hnd])
          (by simp [button_step_state, hnu])
          (by simp only [List.length_cons] at hs
              simp [button_step_state]
              omega)
      constructor
      · rw [hchain]
        simp [ihe]
      · intro v
        rw [hchain]
        simp only []
        rw [ihv v, List.reverse_cons, List.find?_append]
        cases hfind : bs.reverse.find? (fun q => ((q.1 : Int) == v)) with
        | some q => simp [hfind]
        | none =>
            simp only [hfind, Option.none_or]
            by_cases hv : (p.1 : Int) = v
            · rw [List.find?_cons_of_pos _ (by simpa using hv)]
              simp [button_step_state, set_button, hv]
            · rw [List.find?_cons_of_neg _ (by simpa using hv)]
              simp only [List.find?_nil, button_step_state, set_button]
              simp
              intro h
              exact absurd h.symm hv

/-- Claim C6: for any sequence of at most 10 button deltas with indices
inside [0, num_buttons), processed while both button event types are
subscribed and a slot is free per delta: exactly one BUTTON_DOWN or
BUTTON_UP event is emitted per delta (in order), the final intensity of
each button is 32767 if its last delta was a press and 0 if a release
(unchanged if it had no delta), and button intensities stay in
{0, 32767}. -/
theorem c6_button_sequence (joy : Joystick) (bs : List (Nat × Bool))
    (hlen : bs.length ≤ 10)
    (hb : ∀ p ∈ bs, p.1 < joy.info.buttons.length)
    (hnd : joy.es.needs EventType.buttonDown = true)
    (hnu : joy.es.needs EventType.buttonUp = true)
    (hs : bs.length ≤ joy.es.free_slots)
    (hinv : ∀ v : Int, joy.joystate.buttonVal v = 0 ∨ joy.joystate.buttonVal v = 32767) :
    (run_buttons joy bs).events
        = bs.map (fun p =>
            (⟨if p.2 then EventType.buttonDown else EventType.buttonUp, 0, 0, 0,
              (p.1 : Int)⟩ : JoyEvent)) ∧
    (run_buttons joy bs).events.length = bs.length ∧
    (∀ v : Int,
       (run_buttons joy bs).joy.joystate.buttonVal v
         = match bs.reverse.find? (fun p => ((p.1 : Int) == v)) with
           | none => joy.joystate.buttonVal v
           | some q => if q.2 then 32767 else 0) ∧
    (∀ v : Int, (run_buttons joy bs).joy.joystate.buttonVal v = 0 ∨
                (run_buttons joy bs).joy.joystate.buttonVal v = 32767) := by
  cases bs with
  | nil => exact ⟨rfl, rfl, fun v => rfl, hinv⟩
  | cons p rest =>
      obtain ⟨he, hv⟩ := update_items_buttons (p :: rest) joy hb hnd hnu hs
      have hjoy : (run_buttons joy (p :: rest)).joy
          = (update_items joy ((p :: rest).map (fun q => button_delta q.1 q.2))).1 := by
        simp [run_buttons, update_joystick]
      have hev : (run_buttons joy (p :: rest)).events
          = (update_items joy ((p :: rest).map (fun q => button_delta q.1 q.2))).2 := by
        simp [run_buttons, update_joystick]
      refine ⟨?_, ?_, ?_, ?_⟩
      · rw [hev]
        exact he
      · rw [hev, he]
        simp
      · intro v
        rw [hjoy]
        exact hv v
      · intro v
        rw [hjoy, hv v]
        cases hfind : (p :: rest).reverse.find? (fun q => ((q.1 : Int) == v)) with
        | none => simpa using hinv v
        | some q => cases hq : q.2 <;> simp

/-- Witness for c6_button_sequence: the four-button device processing
press B1, press B2, release B1. -/
theorem c6_button_sequence_witness :
    (([((0 : Nat), true), (1, true), (0, false)] : List (Nat × Bool)).length ≤ 10 ∧
     (∀ p ∈ ([((0 : Nat), true), (1, true), (0, false)] : List (Nat × Bool)),
        p.1 < btnJoy.info.buttons.length) ∧
     btnJoy.es.needs EventType.buttonDown = true ∧
     btnJoy.es.needs EventType.buttonUp = true ∧
     ([((0 : Nat), true), (1, true), (0, false)] : List (Nat × Bool)).length
        ≤ btnJoy.es.free_slots ∧
     (∀ v : Int, btnJoy.joystate.buttonVal v = 0 ∨ btnJoy.joystate.buttonVal v = 32767)) ∧
    ((run_buttons btnJoy [(0, true), (1, true), (0, false)]).events
        = ([(0, true), (1, true), (0, false)] : List (Nat × Bool)).map (fun p =>
            (⟨if p.2 then EventType.buttonDown else EventType.buttonUp, 0, 0, 0,
              (p.1 : Int)⟩ : JoyEvent)) ∧
     (run_buttons btnJoy [(0, true), (1, true), (0, false)]).events.length
        = ([(0, true), (1, true), (0, false)] : List (Nat × Bool)).length ∧
     (∀ v : Int,
        (run_buttons btnJoy [(0, true), (1, true), (0, false)]).joy.joystate.buttonVal v
          = match (([(0, true), (1, true), (0, false)] : List (Nat × Bool)).reverse.find?
                (fun p => ((p.1 : Int) == v))) with
            | none => btnJoy.joystate.buttonVal v
            | some q => if q.2 then 32767 else 0) ∧
     (∀ v : Int,
        (run_buttons btnJoy [(0, true), (1, true), (0, false)]).joy.joystate.buttonVal v = 0 ∨
        (run_buttons btnJoy [(0, true), (1, true), (0, false)]).joy.joystate.buttonVal v
          = 32767)) :=
  ⟨⟨by decide, by decide, by decide, by decide, by decide, fun v => Or.inl rfl⟩,
   c6_button_sequence btnJoy [(0, true), (1, true), (0, false)] (by decide) (by decide)
     (by decide) (by decide) (by decide) (fun v => Or.inl rfl)⟩

/-- Claim C7 exercises the conjunctive bounds test of
handle_button_event at the failing input: on the four-button device,
the out-of-schema index 4 is NOT ignored: the code writes intensity
32767 at index 4 (an out-of-bounds array write in C) and emits a
BUTTON_DOWN event, where the claim requires the snapshot untouched and
no event. -/
theorem c7_button_bounds_code_bug :
    btnJoy.info.buttons.length = 4 ∧
    btnJoy.joystate.buttonVal 4 = 0 ∧
    (handle_button_event btnJoy 4 true).1.joystate.buttonVal 4 = 32767 ∧
    (handle_button_event btnJoy 4 true).2 = [⟨EventType.buttonDown, 0, 0, 0, 4⟩] := by
  refine ⟨by decide, by decide, ?_, ?_⟩ <;>
    norm_num [handle_button_event, btnJoy, zeroState, set_button, generate_button_event,
      openES]

/-- Claim C9: when the event queue is full (no free slot), the emit is
skipped but the state mutation stands: handle_axis_event still stores
pos = raw / 32767 into the snapshot and delivers no event, and
handle_button_event still stores the new intensity and delivers no
event. -/
theorem c9_queue_full_state_stands (joy : Joystick) (m : AXIS_MAPPING) (value : Nat)
    (hs0 : 0 ≤ m.stick) (hs1 : m.stick < (joy.info.sticks.length : Int))
    (ha0 : 0 ≤ m.axis)
    (ha1 : m.axis < ((joy.info.sticks.getD m.stick.toNat emptyStick).axes.length : Int))
    (hfull : joy.es.free_slots = 0) :
    ((handle_axis_event joy m value).1.joystate.axisPos m.stick.toNat m.axis.toNat
        = (int32_of_dword value : ℚ) / 32767 ∧
     (handle_axis_event joy m value).2 = []) ∧
    (∀ (b : Int) (down : Bool),
       (handle_button_event joy b down).1.joystate.buttonVal b = (if down then 32767 else 0) ∧
       (handle_button_event joy b down).2 = []) := by
  have h1 : ¬ (m.stick < 0 ∨ (joy.info.sticks.length : Int) ≤ m.stick) := by omega
  have h2 : ¬ (m.axis < 0 ∨
      ((joy.info.sticks.getD m.stick.toNat emptyStick).axes.length : Int) ≤ m.axis) := by
    omega
  constructor
  · constructor
    · simp only [handle_axis_event]
      rw [if_neg h1, if_neg h2]
      simp [set_axis]
    · simp only [handle_axis_event]
      rw [if_neg h1, if_neg h2]
      simp only [generate_axis_event]
      split_ifs <;> simp_all
  · intro b down
    have hrej := handle_button_not_rejected joy b
    constructor
    · cases down <;>
        (simp only [handle_button_event]
         rw [if_neg hrej]) <;>
        simp [set_button]
    · cases down <;>
        (simp only [handle_button_event]
         rw [if_neg hrej]) <;>
        (simp only [generate_button_event]
         split_ifs <;> simp_all)

/-- Witness for c9_queue_full_state_stands: the two-axis pad with a
full event queue, delta (X, 16383). -/
theorem c9_queue_full_state_stands_witness :
    ((0 : Int) ≤ (0 : Int) ∧ (0 : Int) < (padJoyFull.info.sticks.length : Int) ∧
     (0 : Int) ≤ (0 : Int) ∧
     (0 : Int) < ((padJoyFull.info.sticks.getD (0 : Int).toNat emptyStick).axes.length : Int) ∧
     padJoyFull.es.free_slots = 0) ∧
    (((handle_axis_event padJoyFull ⟨0, 0⟩ 16383).1.joystate.axisPos (0 : Int).toNat
          (0 : Int).toNat
        = (int32_of_dword 16383 : ℚ) / 32767 ∧
      (handle_axis_event padJoyFull ⟨0, 0⟩ 16383).2 = []) ∧
     (∀ (b : Int) (down : Bool),
        (handle_button_event padJoyFull b down).1.joystate.buttonVal b
            = (if down then 32767 else 0) ∧
        (handle_button_event padJoyFull b down).2 = [])) :=
  ⟨⟨by decide, by decide, by decide, by decide, by decide⟩,
   c9_queue_full_state_stands padJoyFull ⟨0, 0⟩ 16383 (by decide) (by decide) (by decide)
     (by decide) (by decide)⟩

/-- One poller wake-up leaves a not-gotten device untouched: its record
is unchanged, and if the wake-up was for that device, no events are
emitted. -/
lemma iteration_skips_released (st : DriverState) (num : Int) (dr : DrainResult) (h : Nat)
    (hg : (st.dev h).gotten = false) :
    (joydx_thread_iteration st num dr).1.dev h = st.dev h ∧
    (num = (h : Int) → (joydx_thread_iteration st num dr).2 = []) := by
  simp only [joydx_thread_iteration]
  split_ifs with hout hgot
  · exact ⟨rfl, fun _ => rfl⟩
  · have hne : num.toNat ≠ h := by
      intro he
      simp [he, hg] at hgot
    have hne2 : h ≠ num.toNat := fun he => hne he.symm
    constructor
    · simp [hne2]
    · intro hnum
      exfalso
      have hth : num.toNat = h := by omega
      exact hne hth
  · exact ⟨rfl, fun _ => rfl⟩

/-- A whole run of poller wake-ups leaves a not-gotten device untouched
and emits no events for it. -/
lemma run_skips_released (ws : List (Int × DrainResult)) :
    ∀ (st : DriverState) (h : Nat), (st.dev h).gotten = false →
      (joydx_thread_run st ws).1.dev h = st.dev h ∧
      ∀ q ∈ (joydx_thread_run st ws).2, q.1 = (h : Int) → q.2 = [] := by
  induction ws with
  | nil =>
      intro st h hg
      exact ⟨rfl, by simp [joydx_thread_run]⟩
  | cons w rest ih =>
      intro st h hg
      obtain ⟨hdev, hev⟩ := iteration_skips_released st w.1 w.2 h hg
      have hg2 : ((joydx_thread_iteration st w.1 w.2).1.dev h).gotten = false := by
        rw [hdev]
        exact hg
      obtain ⟨ihdev, ihev⟩ := ih (joydx_thread_iteration st w.1 w.2).1 h hg2
      constructor
      · simp only [joydx_thread_run]
        rw [ihdev, hdev]
      · intro q hq
        simp only [joydx_thread_run, List.mem_cons] at hq
        rcases hq with hq | hq
        · intro hqh
          rw [hq]
          exact hev (by simpa [hq] using hqh)
        · exact ihev q hq

/-- Claim C5: after release(h), with no intervening take, the poller
never touches device h: for every sequence of wake-ups, device h keeps
exactly the record the release left it with, and every wake-up for h
emits no events (the gotten test of joydx_thread_proc fails, so
update_joystick is never invoked for h). -/
theorem c5_release_silences (st : DriverState) (h : Nat) (ws : List (Int × DrainResult)) :
    (joydx_thread_run (release_state st h) ws).1.dev h = (release_state st h).dev h ∧
    ∀ q ∈ (joydx_thread_run (release_state st h) ws).2, q.1 = (h : Int) → q.2 = [] := by
  apply run_skips_released
  simp [release_state, joydx_release_joystick]

/-- Witness for c5_release_silences: the one-pad table after releasing
device 0, woken once for device 0 with a buffered X delta. -/
theorem c5_release_silences_witness :
    (joydx_thread_run (release_state padTable 0) [(0, DrainResult.ok [⟨0, 100⟩])]).1.dev 0
        = (release_state padTable 0).dev 0 ∧
    ∀ q ∈ (joydx_thread_run (release_state padTable 0) [(0, DrainResult.ok [⟨0, 100⟩])]).2,
      q.1 = ((0 : Nat) : Int) → q.2 = [] :=
  c5_release_silences padTable 0 [(0, DrainResult.ok [⟨0, 100⟩])]

/-- Claim C8: whenever any per-device initialization step of the
enumeration callback fails, the device count is unchanged (no slot is
occupied), the wake handle slot ends closed and reset, no device handle
stays open, and the callback still returns continue-enumeration. -/
theorem c8_enum_failure_isolated (n : Nat) (oc : EnumOutcome)
    (hfail : enum_callback_success oc = false) :
    (joystick_enum_callback n oc).num_joysticks = n ∧
    (joystick_enum_callback n oc).waker = none ∧
    (joystick_enum_callback n oc).device_open = false ∧
    (joystick_enum_callback n oc).ret_continue = true := by
  rcases oc with ⟨c1, c2, c3, c4, c5, c6, c7, c8, c9, c10, c11⟩
  simp only [enum_callback_success] at hfail
  cases c1 <;> cases c2 <;> cases c3 <;> cases c4 <;> cases c5 <;> cases c6 <;> cases c7 <;>
    cases c8 <;> cases c9 <;> cases c10 <;> cases c11 <;>
    simp_all [joystick_enum_callback, enum_error_cleanup]

/-- Witness for c8_enum_failure_isolated: a device whose cooperative
level step fails with three devices already enumerated. -/
theorem c8_enum_failure_isolated_witness :
    enum_callback_success ⟨true, true, false, true, true, true, true, true, true, false, true⟩
        = false ∧
    ((joystick_enum_callback 3
        ⟨true, true, false, true, true, true, true, true, true, false, true⟩).num_joysticks = 3 ∧
     (joystick_enum_callback 3
        ⟨true, true, false, true, true, true, true, true, true, false, true⟩).waker = none ∧
     (joystick_enum_callback 3
        ⟨true, true, false, true, true, true, true, true, true, false, true⟩).device_open
        = false ∧
     (joystick_enum_callback 3
        ⟨true, true, false, true, true, true, true, true, true, false, true⟩).ret_continue
        = true) :=
  ⟨by decide,
   c8_enum_failure_isolated 3
     ⟨true, true, false, true, true, true, true, true, true, false, true⟩ (by decide)⟩

/-- Claim C10 is contradicted by the code itself: the entry assertion
of joystick_enum_callback demands 0 < joydx_num_joysticks, yet
joydx_init starts enumeration at joydx_num_joysticks = 0, so the
assertion is false on the very first invocation; moreover the callback
has no runtime bound check (ASSERT compiles out), so with nine attached
controllers the first eight successful callbacks raise the count to 8
and the ninth writes table slot 8, outside the 8-entry device table
(and waker slot 1 + 8, outside the 9-entry waker array), while still
incrementing the count to 9. -/
theorem c10_enum_assert_and_bounds_code_bug :
    (¬ enum_entry_assert 0) ∧
    enum_run (List.replicate 8 all_ok_outcome) = 8 ∧
    (joystick_enum_callback 8 all_ok_outcome).slot_written = 8 ∧
    ¬ (8 < MAX_JOYSTICKS) ∧
    (joystick_enum_callback 8 all_ok_outcome).num_joysticks = 9 := by
  refine ⟨by decide, by decide, by decide, by decide, by decide⟩

end Wjoydxnu
